import Mathlib

/-!
# Verification of the inventory simulation (src/app.py)

Shallow embedding of the discrete-event inventory simulation implemented with
SimPy in `src/app.py`.  Python floats are modelled as exact rationals (and
reals where a square root occurs); NumPy normal draws are modelled as input
streams of samples, one demand sample and one lead-time sample per day.

Scheduling model (SimPy semantics, relevant facts):
* `env.process(g)` schedules an `Initialize` event at the current time with
  priority URGENT; the first segment of the generator `g` therefore runs
  later within the *same* simulated day, after the currently running process
  has yielded.
* Two `Timeout` events at the same time are processed in the order of their
  creation (FIFO by event id).  Consequently an order launched on day `t`
  with clamped lead time `L ≥ 1` arrives on day `t + L`; its arrival is
  processed *before* the daily body of day `t + L` when `L ≥ 2` (the arrival
  timeout was created on day `t`, the daily timeout only on day `t + L - 1`),
  and *after* the daily body when `L = 1` (both timeouts were created on day
  `t`, the daily one first).
* `env.run(until=H)` processes exactly the events at times `0, …, H - 1`.

The four distribution centres own disjoint state, so a single site is
modelled; the interleaving of the sites never changes a site's own trace.
-/

/-- The per-site parameter dictionary built in `src/app.py` lines 114-154
(`demanda_media`, `demanda_std`, `lead_time_media`, `lead_time_std`,
`custo_frete`, `estoque_inicial`, `fator_seguranca`). -/
structure Params where
  demanda_media : ℚ
  demanda_std : ℚ
  lead_time_media : ℚ
  lead_time_std : ℚ
  custo_frete : ℚ
  estoque_inicial : ℚ
  fator_seguranca : ℚ

/-- A replenishment order in flight: the day `fazer_pedido` was launched and
the day its `timeout` fires (launch day plus the clamped lead time). -/
structure Pedido where
  lancado : ℕ
  chegada : ℕ

/-- The mutable state of one `CentroDistribuicao` (lines 16-29) together with
the scheduler bookkeeping: `pendentes` is the list of this site's in-flight
`fazer_pedido` processes (each recorded with launch and arrival day). -/
structure Estado where
  estoque : ℚ
  pedido_em_transito : Bool
  vendas_perdidas : ℚ
  custo_total : ℚ
  historico_dias : List ℕ
  historico_estoque : List ℚ
  pendentes : List Pedido

/-- Python `int()` applied to a float: truncation toward zero. -/
def pytrunc (q : ℚ) : ℤ := if 0 ≤ q then ⌊q⌋ else ⌈q⌉

/-- Lines 38-39: `demanda = max(0, int(demanda))` applied to the normal
sample of the day. -/
def demandaDia (dS : ℚ) : ℤ := max 0 (pytrunc dS)

/-- Line 56: `demanda_lead_time = demanda_media * lead_time_media`. -/
def demanda_lead_time (p : Params) : ℚ := p.demanda_media * p.lead_time_media

/-- Line 60: `var_demanda_durante_lt = lead_time_media * demanda_std**2`. -/
def var_demanda_durante_lt (p : Params) : ℚ := p.lead_time_media * p.demanda_std ^ 2

/-- Line 61: `var_lead_time_demand = demanda_media**2 * lead_time_std**2`. -/
def var_lead_time_demand (p : Params) : ℚ := p.demanda_media ^ 2 * p.lead_time_std ^ 2

/-- Line 63: `sigma_combinado = np.sqrt(var_demanda_durante_lt + var_lead_time_demand)`. -/
noncomputable def sigma_combinado (p : Params) : ℝ :=
  Real.sqrt ((var_demanda_durante_lt p + var_lead_time_demand p : ℚ) : ℝ)

/-- Line 66: `estoque_seguranca = fator_seguranca * sigma_combinado`. -/
noncomputable def estoque_seguranca (p : Params) : ℝ :=
  (p.fator_seguranca : ℝ) * sigma_combinado p

/-- Line 68: `rop = demanda_lead_time + estoque_seguranca`. -/
noncomputable def rop (p : Params) : ℝ :=
  ((demanda_lead_time p : ℚ) : ℝ) + estoque_seguranca p

/-- Decidable form of the trigger comparison `self.estoque < rop` (line 71):
for a nonnegative variance term it decides `(e : ℝ) < rop p` by comparing
squares in ℚ (theorem `belowROP_iff` below), so that the simulation
step stays executable. -/
def belowROP (p : Params) (e : ℚ) : Bool :=
  let t : ℚ := e - demanda_lead_time p
  let v : ℚ := var_demanda_durante_lt p + var_lead_time_demand p
  if 0 ≤ p.fator_seguranca then
    decide (t < 0) || (decide (0 ≤ t) && decide (t ^ 2 < p.fator_seguranca ^ 2 * v))
  else
    decide (t < 0) && decide (p.fator_seguranca ^ 2 * v < t ^ 2)

/-- Lines 41-50: apply the day's demand.  `self.estoque >= demanda` is
written `(demanda : ℚ) ≤ s.estoque`; on shortage the shortfall is added to
`vendas_perdidas`, penalised at 20.00 per unit, and stock is set to 0. -/
def consumo (s : Estado) (demanda : ℤ) : Estado :=
  if (demanda : ℚ) ≤ s.estoque then
    { s with estoque := s.estoque - (demanda : ℚ) }
  else
    { s with
      estoque := 0,
      vendas_perdidas := s.vendas_perdidas + ((demanda : ℚ) - s.estoque),
      custo_total := s.custo_total + ((demanda : ℚ) - s.estoque) * 20 }

/-- One iteration of the `while True` body of `rodar_dia_a_dia`
(lines 31-77): snapshot, demand draw and clamp, consumption, trigger check
(line 71; the Boolean result records whether `env.process(fazer_pedido())`
was called), and the daily holding cost `estoque * (5.00 / 365)` (line 75).
Only the trigger decision is returned; the flag itself is not touched here,
mirroring the source, where the flag assignment lives in `fazer_pedido`.
Taking the normal draw as a total input sample `dS` is faithful exactly on
numpy's sampling domain `demanda_std ≥ 0`: for a negative scale
`np.random.normal` raises a ValueError at line 38 (during day 0, after the
first snapshot), a path this model does not represent; theorems about
spec-invalid parameters therefore carry that domain as a hypothesis. -/
def corpo_do_dia (p : Params) (dia : ℕ) (dS : ℚ) (s : Estado) : Estado × Bool :=
  let s1 : Estado :=
    { s with
      historico_dias := s.historico_dias ++ [dia],
      historico_estoque := s.historico_estoque ++ [s.estoque] }
  let demanda : ℤ := demandaDia dS
  let s2 : Estado := consumo s1 demanda
  let lanca : Bool := belowROP p s2.estoque && !s2.pedido_em_transito
  let s3 : Estado := { s2 with custo_total := s2.custo_total + s2.estoque * (5 / 365) }
  (s3, lanca)

/-- Lines 82-83: `tempo = max(1, int(np.random.normal(...)))`, the clamped
lead time in days, applied to the lead-time sample of the launch day. -/
def tempo_entrega (ltS : ℚ) : ℕ := (max 1 (pytrunc ltS)).toNat

/-- Lines 80-84 of `fazer_pedido`: the first segment of the generator, run by
the scheduler within the launch day: it sets `pedido_em_transito = True`,
draws and clamps the lead time and yields a timeout, i.e. schedules the
arrival `tempo_entrega ltS` days later. -/
def fazer_pedido_inicio (dia : ℕ) (ltS : ℚ) (s : Estado) : Estado :=
  { s with
    pedido_em_transito := true,
    pendentes := s.pendentes ++ [{ lancado := dia, chegada := dia + tempo_entrega ltS }] }

/-- Lines 86-92 of `fazer_pedido`: the segment after the timeout: stock
increases by the fixed lot `qtd = 300`, the ordering cost
`150.00 + qtd * custo_frete` accrues, and the flag is cleared. -/
def fazer_pedido_chegada (p : Params) (s : Estado) : Estado :=
  { s with
    estoque := s.estoque + 300,
    custo_total := s.custo_total + (150 + 300 * p.custo_frete),
    pedido_em_transito := false }

/-- Process the pending orders selected by `crit`: each one runs
`fazer_pedido_chegada` and leaves the pending list. -/
def chegadas (p : Params) (crit : Pedido → Bool) (s : Estado) : Estado :=
  { (s.pendentes.filter crit).foldl (fun t _ => fazer_pedido_chegada p t) s with
    pendentes := s.pendentes.filter fun o => !crit o }

/-- An order whose arrival timeout fires on day `dia` and was created two or
more days earlier: its event id precedes the daily timeout of day `dia`, so
it is processed before the daily body. -/
def chegaCedo (dia : ℕ) (o : Pedido) : Bool :=
  decide (o.chegada = dia) && decide (o.lancado + 2 ≤ dia)

/-- An order that arrives on day `dia` with clamped lead time exactly 1: its
timeout was created after the daily timeout of day `dia`, so it is processed
after the daily body. -/
def chegaTarde (dia : ℕ) (o : Pedido) : Bool :=
  decide (o.chegada = dia) && decide (o.lancado + 1 = dia)

/-- If the trigger fired (line 72, `env.process(self.fazer_pedido())`), the
URGENT `Initialize` event runs the first segment of `fazer_pedido` later the
same day; otherwise nothing happens. -/
def gatilho (dia : ℕ) (ltS : ℚ) (s : Estado) (lanca : Bool) : Estado :=
  if lanca then fazer_pedido_inicio dia ltS s else s

/-- All scheduler activity of one site during simulated day `dia`, in SimPy
event order: arrivals with lead time ≥ 2, then the daily body, then the
initialization of a newly launched order, then arrivals with lead time 1. -/
def passo_dia (p : Params) (dia : ℕ) (dS ltS : ℚ) (s : Estado) : Estado :=
  let s0 := chegadas p (chegaCedo dia) s
  let r := corpo_do_dia p dia dS s0
  chegadas p (chegaTarde dia) (gatilho dia ltS r.1 r.2)

/-- Lines 16-29, `CentroDistribuicao.__init__`: the initial state.  Note that
the constructor performs no validation of the parameters whatsoever. -/
def estado_inicial (p : Params) : Estado :=
  { estoque := p.estoque_inicial,
    pedido_em_transito := false,
    vendas_perdidas := 0,
    custo_total := 0,
    historico_dias := [],
    historico_estoque := [],
    pendentes := [] }

/-- `env.run(until=n)` for one site: the state after the events of days
`0, …, n - 1` have been processed, with `f` supplying the day's demand and
lead-time normal samples. -/
def rodar (p : Params) (f : ℕ → ℚ × ℚ) : ℕ → Estado
  | 0 => estado_inicial p
  | n + 1 => passo_dia p n (f n).1 (f n).2 (rodar p f n)

/-- Concrete valid parameters used by the witnesses below (mean demand 5,
no variance, mean lead time 4, initial stock 2, safety factor 1). -/
def paramsTeste : Params :=
  { demanda_media := 5, demanda_std := 0, lead_time_media := 4, lead_time_std := 0,
    custo_frete := 5/2, estoque_inicial := 2, fator_seguranca := 1 }

/-- Concrete input streams for the witnesses: every day the demand sample is
3 and the lead-time sample is 2. -/
def entradaTeste : ℕ → ℚ × ℚ := fun _ => (3, 2)

/-! ## Projection lemmas for the elementary operations -/

theorem consumo_pedido_em_transito (s : Estado) (d : ℤ) :
    (consumo s d).pedido_em_transito = s.pedido_em_transito := by
  unfold consumo; split <;> rfl

theorem consumo_pendentes (s : Estado) (d : ℤ) :
    (consumo s d).pendentes = s.pendentes := by
  unfold consumo; split <;> rfl

theorem consumo_historico_dias (s : Estado) (d : ℤ) :
    (consumo s d).historico_dias = s.historico_dias := by
  unfold consumo; split <;> rfl

theorem consumo_historico_estoque (s : Estado) (d : ℤ) :
    (consumo s d).historico_estoque = s.historico_estoque := by
  unfold consumo; split <;> rfl

theorem consumo_estoque (s : Estado) (d : ℤ) :
    (consumo s d).estoque = if (d : ℚ) ≤ s.estoque then s.estoque - (d : ℚ) else 0 := by
  unfold consumo; split <;> rfl

theorem consumo_vendas (s : Estado) (d : ℤ) :
    (consumo s d).vendas_perdidas =
      if (d : ℚ) ≤ s.estoque then s.vendas_perdidas
      else s.vendas_perdidas + ((d : ℚ) - s.estoque) := by
  unfold consumo; split <;> rfl

theorem consumo_custo (s : Estado) (d : ℤ) :
    (consumo s d).custo_total =
      if (d : ℚ) ≤ s.estoque then s.custo_total
      else s.custo_total + ((d : ℚ) - s.estoque) * 20 := by
  unfold consumo; split <;> rfl

theorem corpo_fst_pendentes (p : Params) (dia : ℕ) (dS : ℚ) (s : Estado) :
    (corpo_do_dia p dia dS s).1.pendentes = s.pendentes := by
  simp [corpo_do_dia, consumo_pendentes]

theorem corpo_fst_pedido_em_transito (p : Params) (dia : ℕ) (dS : ℚ) (s : Estado) :
    (corpo_do_dia p dia dS s).1.pedido_em_transito = s.pedido_em_transito := by
  simp [corpo_do_dia, consumo_pedido_em_transito]

theorem corpo_fst_historico_dias (p : Params) (dia : ℕ) (dS : ℚ) (s : Estado) :
    (corpo_do_dia p dia dS s).1.historico_dias = s.historico_dias ++ [dia] := by
  simp [corpo_do_dia, consumo_historico_dias]

theorem corpo_fst_historico_estoque (p : Params) (dia : ℕ) (dS : ℚ) (s : Estado) :
    (corpo_do_dia p dia dS s).1.historico_estoque = s.historico_estoque ++ [s.estoque] := by
  simp [corpo_do_dia, consumo_historico_estoque]

theorem corpo_fst_estoque (p : Params) (dia : ℕ) (dS : ℚ) (s : Estado) :
    (corpo_do_dia p dia dS s).1.estoque =
      if (demandaDia dS : ℚ) ≤ s.estoque then s.estoque - (demandaDia dS : ℚ) else 0 := by
  simp [corpo_do_dia, consumo_estoque]

theorem corpo_fst_vendas (p : Params) (dia : ℕ) (dS : ℚ) (s : Estado) :
    (corpo_do_dia p dia dS s).1.vendas_perdidas =
      if (demandaDia dS : ℚ) ≤ s.estoque then s.vendas_perdidas
      else s.vendas_perdidas + ((demandaDia dS : ℚ) - s.estoque) := by
  simp [corpo_do_dia, consumo_vendas]

theorem corpo_snd (p : Params) (dia : ℕ) (dS : ℚ) (s : Estado) :
    (corpo_do_dia p dia dS s).2 =
      (belowROP p (corpo_do_dia p dia dS s).1.estoque && !s.pedido_em_transito) := by
  simp [corpo_do_dia, consumo_pedido_em_transito, consumo_estoque]

theorem gatilho_pedido_em_transito (dia : ℕ) (ltS : ℚ) (s : Estado) (b : Bool) :
    (gatilho dia ltS s b).pedido_em_transito = (b || s.pedido_em_transito) := by
  cases b <;> simp [gatilho, fazer_pedido_inicio]

theorem gatilho_pendentes (dia : ℕ) (ltS : ℚ) (s : Estado) (b : Bool) :
    (gatilho dia ltS s b).pendentes =
      if b then s.pendentes ++ [{ lancado := dia, chegada := dia + tempo_entrega ltS }]
      else s.pendentes := by
  cases b <;> simp [gatilho, fazer_pedido_inicio]

theorem gatilho_estoque (dia : ℕ) (ltS : ℚ) (s : Estado) (b : Bool) :
    (gatilho dia ltS s b).estoque = s.estoque := by
  cases b <;> simp [gatilho, fazer_pedido_inicio]

theorem gatilho_vendas (dia : ℕ) (ltS : ℚ) (s : Estado) (b : Bool) :
    (gatilho dia ltS s b).vendas_perdidas = s.vendas_perdidas := by
  cases b <;> simp [gatilho, fazer_pedido_inicio]

theorem gatilho_historico_dias (dia : ℕ) (ltS : ℚ) (s : Estado) (b : Bool) :
    (gatilho dia ltS s b).historico_dias = s.historico_dias := by
  cases b <;> simp [gatilho, fazer_pedido_inicio]

theorem gatilho_historico_estoque (dia : ℕ) (ltS : ℚ) (s : Estado) (b : Bool) :
    (gatilho dia ltS s b).historico_estoque = s.historico_estoque := by
  cases b <;> simp [gatilho, fazer_pedido_inicio]

/-! ## Lemmas about folding arrivals over a list of pending orders -/

theorem foldl_chegada_pendentes (p : Params) (l : List Pedido) (s : Estado) :
    (l.foldl (fun t _ => fazer_pedido_chegada p t) s).pendentes = s.pendentes := by
  induction l generalizing s with
  | nil => rfl
  | cons o l ih => simpa [fazer_pedido_chegada] using ih (fazer_pedido_chegada p s)

theorem foldl_chegada_vendas (p : Params) (l : List Pedido) (s : Estado) :
    (l.foldl (fun t _ => fazer_pedido_chegada p t) s).vendas_perdidas = s.vendas_perdidas := by
  induction l generalizing s with
  | nil => rfl
  | cons o l ih => simpa [fazer_pedido_chegada] using ih (fazer_pedido_chegada p s)

theorem foldl_chegada_historico_dias (p : Params) (l : List Pedido) (s : Estado) :
    (l.foldl (fun t _ => fazer_pedido_chegada p t) s).historico_dias = s.historico_dias := by
  induction l generalizing s with
  | nil => rfl
  | cons o l ih => simpa [fazer_pedido_chegada] using ih (fazer_pedido_chegada p s)

theorem foldl_chegada_historico_estoque (p : Params) (l : List Pedido) (s : Estado) :
    (l.foldl (fun t _ => fazer_pedido_chegada p t) s).historico_estoque = s.historico_estoque := by
  induction l generalizing s with
  | nil => rfl
  | cons o l ih => simpa [fazer_pedido_chegada] using ih (fazer_pedido_chegada p s)

theorem foldl_chegada_estoque (p : Params) (l : List Pedido) (s : Estado) :
    (l.foldl (fun t _ => fazer_pedido_chegada p t) s).estoque =
      s.estoque + 300 * l.length := by
  induction l generalizing s with
  | nil => simp
  | cons o l ih =>
      rw [List.foldl_cons, ih (fazer_pedido_chegada p s)]
      simp only [fazer_pedido_chegada, List.length_cons]
      push_cast
      ring

theorem foldl_chegada_flag_false (p : Params) (l : List Pedido) (s : Estado)
    (h : s.pedido_em_transito = false) :
    (l.foldl (fun t _ => fazer_pedido_chegada p t) s).pedido_em_transito = false := by
  induction l generalizing s with
  | nil => exact h
  | cons o l ih => exact ih (fazer_pedido_chegada p s) rfl

theorem foldl_chegada_flag (p : Params) (l : List Pedido) (s : Estado) :
    (l.foldl (fun t _ => fazer_pedido_chegada p t) s).pedido_em_transito =
      if l.isEmpty then s.pedido_em_transito else false := by
  cases l with
  | nil => rfl
  | cons o l => simpa using foldl_chegada_flag_false p l (fazer_pedido_chegada p s) rfl

/-! ## Projection lemmas for `chegadas` -/

theorem chegadas_pendentes (p : Params) (crit : Pedido → Bool) (s : Estado) :
    (chegadas p crit s).pendentes = s.pendentes.filter fun o => !crit o := rfl

theorem chegadas_vendas (p : Params) (crit : Pedido → Bool) (s : Estado) :
    (chegadas p crit s).vendas_perdidas = s.vendas_perdidas := by
  simp [chegadas, foldl_chegada_vendas]

theorem chegadas_historico_dias (p : Params) (crit : Pedido → Bool) (s : Estado) :
    (chegadas p crit s).historico_dias = s.historico_dias := by
  simp [chegadas, foldl_chegada_historico_dias]

theorem chegadas_historico_estoque (p : Params) (crit : Pedido → Bool) (s : Estado) :
    (chegadas p crit s).historico_estoque = s.historico_estoque := by
  simp [chegadas, foldl_chegada_historico_estoque]

theorem chegadas_estoque (p : Params) (crit : Pedido → Bool) (s : Estado) :
    (chegadas p crit s).estoque = s.estoque + 300 * (s.pendentes.filter crit).length := by
  simp [chegadas, foldl_chegada_estoque]

theorem chegadas_flag (p : Params) (crit : Pedido → Bool) (s : Estado) :
    (chegadas p crit s).pedido_em_transito =
      if (s.pendentes.filter crit).isEmpty then s.pedido_em_transito else false := by
  simp only [chegadas, foldl_chegada_flag]

/-! ## The one-order-in-flight invariant -/

/-- Scheduler bookkeeping invariant: at most one `fazer_pedido` process is in
flight, and `pedido_em_transito` is true exactly when one is. -/
def InvUnico (s : Estado) : Prop :=
  s.pendentes.length ≤ 1 ∧ (s.pedido_em_transito = true ↔ s.pendentes ≠ [])

theorem inv_estado_inicial (p : Params) : InvUnico (estado_inicial p) := by
  constructor <;> simp [estado_inicial]

theorem inv_chegadas (p : Params) (crit : Pedido → Bool) (s : Estado) (h : InvUnico s) :
    InvUnico (chegadas p crit s) := by
  obtain ⟨h1, h2⟩ := h
  rcases hp : s.pendentes with _ | ⟨o, rest⟩
  · have hf : s.pedido_em_transito = false := by
      cases hb : s.pedido_em_transito
      · rfl
      · exact absurd (h2.mp hb) (by simp [hp])
    constructor
    · rw [chegadas_pendentes, hp]
      simp
    · rw [chegadas_flag, chegadas_pendentes, hp]
      simp [hf]
  · have hrest : rest = [] := by
      rw [hp] at h1
      have : rest.length = 0 := by simpa using h1
      exact List.length_eq_zero.mp this
    subst hrest
    have hf : s.pedido_em_transito = true := h2.mpr (by simp [hp])
    cases hc : crit o
    · constructor
      · rw [chegadas_pendentes, hp]
        simp [List.filter, hc]
      · rw [chegadas_flag, chegadas_pendentes, hp]
        simp [List.filter, hc, hf]
    · constructor
      · rw [chegadas_pendentes, hp]
        simp [List.filter, hc]
      · rw [chegadas_flag, chegadas_pendentes, hp]
        simp [List.filter, hc]

theorem inv_corpo_gatilho (p : Params) (dia : ℕ) (dS ltS : ℚ) (s : Estado) (h : InvUnico s) :
    InvUnico (gatilho dia ltS (corpo_do_dia p dia dS s).1 (corpo_do_dia p dia dS s).2) := by
  obtain ⟨h1, h2⟩ := h
  cases hb : s.pedido_em_transito
  · have hp : s.pendentes = [] := by
      rcases hq : s.pendentes with _ | ⟨o, rest⟩
      · rfl
      · exact absurd (h2.mpr (by simp [hq])) (by simp [hb])
    cases hl : (corpo_do_dia p dia dS s).2
    · constructor
      · simp [gatilho_pendentes, corpo_fst_pendentes, hp]
      · simp [gatilho_pendentes, gatilho_pedido_em_transito,
          corpo_fst_pendentes, corpo_fst_pedido_em_transito, hb, hp]
    · constructor
      · simp [gatilho_pendentes, corpo_fst_pendentes, hp]
      · simp [gatilho_pendentes, gatilho_pedido_em_transito, corpo_fst_pendentes, hp]
  · have hl : (corpo_do_dia p dia dS s).2 = false := by
      rw [corpo_snd, hb]
      simp
    rw [hl]
    constructor
    · simpa [gatilho_pendentes, corpo_fst_pendentes] using h1
    · simp [gatilho_pendentes, gatilho_pedido_em_transito,
        corpo_fst_pendentes, corpo_fst_pedido_em_transito, hb, h2.mp hb]

theorem inv_passo (p : Params) (dia : ℕ) (dS ltS : ℚ) (s : Estado) (h : InvUnico s) :
    InvUnico (passo_dia p dia dS ltS s) := by
  unfold passo_dia
  exact inv_chegadas _ _ _ (inv_corpo_gatilho _ _ _ _ _ (inv_chegadas _ _ _ h))

theorem inv_rodar (p : Params) (f : ℕ → ℚ × ℚ) : ∀ n, InvUnico (rodar p f n)
  | 0 => inv_estado_inicial p
  | n + 1 => inv_passo _ _ _ _ _ (inv_rodar p f n)

/-! ## Nonnegativity of the stock -/

/-- The stock is nonnegative and so is every recorded history entry. -/
def EstoquePos (s : Estado) : Prop :=
  0 ≤ s.estoque ∧ ∀ x ∈ s.historico_estoque, 0 ≤ x

theorem estoquePos_chegadas (p : Params) (crit : Pedido → Bool) (s : Estado)
    (h : EstoquePos s) : EstoquePos (chegadas p crit s) := by
  obtain ⟨h1, h2⟩ := h
  refine ⟨?_, ?_⟩
  · rw [chegadas_estoque]
    have hn : (0 : ℚ) ≤ 300 * (s.pendentes.filter crit).length := by positivity
    linarith
  · rw [chegadas_historico_estoque]
    exact h2

theorem estoquePos_corpo_gatilho (p : Params) (dia : ℕ) (dS ltS : ℚ) (s : Estado)
    (h : EstoquePos s) :
    EstoquePos (gatilho dia ltS (corpo_do_dia p dia dS s).1 (corpo_do_dia p dia dS s).2) := by
  obtain ⟨h1, h2⟩ := h
  refine ⟨?_, ?_⟩
  · rw [gatilho_estoque, corpo_fst_estoque]
    split
    next hc => linarith
    next => exact le_refl 0
  · rw [gatilho_historico_estoque, corpo_fst_historico_estoque]
    intro x hx
    rcases List.mem_append.mp hx with hx | hx
    · exact h2 x hx
    · have : x = s.estoque := by simpa using hx
      rw [this]
      exact h1

theorem estoquePos_passo (p : Params) (dia : ℕ) (dS ltS : ℚ) (s : Estado)
    (h : EstoquePos s) : EstoquePos (passo_dia p dia dS ltS s) := by
  unfold passo_dia
  exact estoquePos_chegadas _ _ _
    (estoquePos_corpo_gatilho _ _ _ _ _ (estoquePos_chegadas _ _ _ h))

theorem estoquePos_rodar (p : Params) (f : ℕ → ℚ × ℚ) (h0 : 0 ≤ p.estoque_inicial) :
    ∀ n, EstoquePos (rodar p f n)
  | 0 => ⟨h0, by simp [rodar, estado_inicial]⟩
  | n + 1 => estoquePos_passo _ _ _ _ _ (estoquePos_rodar p f h0 n)

/-! ## Integrality of stock and lost sales -/

/-- Stock and the lost-sales accumulator hold integer values. -/
def EstadoInteiro (s : Estado) : Prop :=
  (∃ k : ℤ, s.estoque = (k : ℚ)) ∧ ∃ k : ℤ, s.vendas_perdidas = (k : ℚ)

theorem estadoInteiro_chegadas (p : Params) (crit : Pedido → Bool) (s : Estado)
    (h : EstadoInteiro s) : EstadoInteiro (chegadas p crit s) := by
  obtain ⟨⟨k, hk⟩, ⟨m, hm⟩⟩ := h
  refine ⟨⟨k + 300 * (s.pendentes.filter crit).length, ?_⟩, ⟨m, ?_⟩⟩
  · rw [chegadas_estoque, hk]
    push_cast
    ring
  · rw [chegadas_vendas]
    exact hm

theorem estadoInteiro_corpo_gatilho (p : Params) (dia : ℕ) (dS ltS : ℚ) (s : Estado)
    (h : EstadoInteiro s) :
    EstadoInteiro (gatilho dia ltS (corpo_do_dia p dia dS s).1 (corpo_do_dia p dia dS s).2) := by
  obtain ⟨⟨k, hk⟩, ⟨m, hm⟩⟩ := h
  constructor
  · rw [gatilho_estoque, corpo_fst_estoque]
    split
    next => exact ⟨k - demandaDia dS, by rw [hk]; push_cast; ring⟩
    next => exact ⟨0, by norm_num⟩
  · rw [gatilho_vendas, corpo_fst_vendas]
    split
    next => exact ⟨m, hm⟩
    next => exact ⟨m + (demandaDia dS - k), by rw [hm, hk]; push_cast; ring⟩

theorem estadoInteiro_passo (p : Params) (dia : ℕ) (dS ltS : ℚ) (s : Estado)
    (h : EstadoInteiro s) : EstadoInteiro (passo_dia p dia dS ltS s) := by
  unfold passo_dia
  exact estadoInteiro_chegadas _ _ _
    (estadoInteiro_corpo_gatilho _ _ _ _ _ (estadoInteiro_chegadas _ _ _ h))

theorem estadoInteiro_rodar (p : Params) (f : ℕ → ℚ × ℚ)
    (h0 : ∃ k : ℤ, p.estoque_inicial = (k : ℚ)) :
    ∀ n, EstadoInteiro (rodar p f n)
  | 0 => ⟨h0, ⟨0, by simp [rodar, estado_inicial]⟩⟩
  | n + 1 => estadoInteiro_passo _ _ _ _ _ (estadoInteiro_rodar p f h0 n)

/-! ## The recorded day history -/

theorem passo_historico_dias (p : Params) (dia : ℕ) (dS ltS : ℚ) (s : Estado) :
    (passo_dia p dia dS ltS s).historico_dias = s.historico_dias ++ [dia] := by
  simp [passo_dia, chegadas_historico_dias, gatilho_historico_dias, corpo_fst_historico_dias]

/-! ## The trigger decides the combined-variance ROP comparison -/

theorem belowROP_iff (p : Params) (e : ℚ)
    (hv : 0 ≤ var_demanda_durante_lt p + var_lead_time_demand p) :
    belowROP p e = true ↔ (e : ℝ) < rop p := by
  have hvR : (0 : ℝ) ≤ ((var_demanda_durante_lt p + var_lead_time_demand p : ℚ) : ℝ) := by
    exact_mod_cast hv
  rw [rop, estoque_seguranca, sigma_combinado]
  simp only [belowROP]
  by_cases hz : 0 ≤ p.fator_seguranca
  · have hzR : (0 : ℝ) ≤ (p.fator_seguranca : ℝ) := by exact_mod_cast hz
    have key : (p.fator_seguranca : ℝ) *
        Real.sqrt ((var_demanda_durante_lt p + var_lead_time_demand p : ℚ) : ℝ) =
        Real.sqrt ((p.fator_seguranca : ℝ) ^ 2 *
          ((var_demanda_durante_lt p + var_lead_time_demand p : ℚ) : ℝ)) := by
      rw [Real.sqrt_mul (sq_nonneg _), Real.sqrt_sq hzR]
    rw [if_pos hz, key]
    simp only [Bool.or_eq_true, Bool.and_eq_true, decide_eq_true_eq]
    constructor
    · rintro (h | ⟨h1, h2⟩)
      · have hR : (e : ℝ) - ((demanda_lead_time p : ℚ) : ℝ) < 0 := by exact_mod_cast h
        have hs := Real.sqrt_nonneg ((p.fator_seguranca : ℝ) ^ 2 *
          ((var_demanda_durante_lt p + var_lead_time_demand p : ℚ) : ℝ))
        linarith
      · have h1R : (0 : ℝ) ≤ (e : ℝ) - ((demanda_lead_time p : ℚ) : ℝ) := by exact_mod_cast h1
        have h2R : ((e : ℝ) - ((demanda_lead_time p : ℚ) : ℝ)) ^ 2 <
            (p.fator_seguranca : ℝ) ^ 2 *
              ((var_demanda_durante_lt p + var_lead_time_demand p : ℚ) : ℝ) := by
          exact_mod_cast h2
        have := (Real.lt_sqrt h1R).mpr h2R
        linarith
    · intro h
      by_cases h1 : e - demanda_lead_time p < 0
      · exact Or.inl h1
      · right
        have h1Q : 0 ≤ e - demanda_lead_time p := le_of_not_lt h1
        refine ⟨h1Q, ?_⟩
        have h1R : (0 : ℝ) ≤ (e : ℝ) - ((demanda_lead_time p : ℚ) : ℝ) := by exact_mod_cast h1Q
        have hR : (e : ℝ) - ((demanda_lead_time p : ℚ) : ℝ) <
            Real.sqrt ((p.fator_seguranca : ℝ) ^ 2 *
              ((var_demanda_durante_lt p + var_lead_time_demand p : ℚ) : ℝ)) := by
          linarith
        have := (Real.lt_sqrt h1R).mp hR
        exact_mod_cast this
  · have hzQ : p.fator_seguranca < 0 := lt_of_not_le hz
    have hzR : (p.fator_seguranca : ℝ) < 0 := by exact_mod_cast hzQ
    have key : (p.fator_seguranca : ℝ) *
        Real.sqrt ((var_demanda_durante_lt p + var_lead_time_demand p : ℚ) : ℝ) =
        -Real.sqrt ((p.fator_seguranca : ℝ) ^ 2 *
          ((var_demanda_durante_lt p + var_lead_time_demand p : ℚ) : ℝ)) := by
      rw [Real.sqrt_mul (sq_nonneg _), Real.sqrt_sq_eq_abs, abs_of_neg hzR]
      ring
    rw [if_neg hz, key]
    simp only [Bool.and_eq_true, decide_eq_true_eq]
    constructor
    · rintro ⟨h1, h2⟩
      have h1R : (e : ℝ) - ((demanda_lead_time p : ℚ) : ℝ) < 0 := by exact_mod_cast h1
      have h2R : (p.fator_seguranca : ℝ) ^ 2 *
          ((var_demanda_durante_lt p + var_lead_time_demand p : ℚ) : ℝ) <
          ((e : ℝ) - ((demanda_lead_time p : ℚ) : ℝ)) ^ 2 := by
        exact_mod_cast h2
      have hpos : 0 < ((demanda_lead_time p : ℚ) : ℝ) - (e : ℝ) := by linarith
      have hsq2 : (p.fator_seguranca : ℝ) ^ 2 *
          ((var_demanda_durante_lt p + var_lead_time_demand p : ℚ) : ℝ) <
          (((demanda_lead_time p : ℚ) : ℝ) - (e : ℝ)) ^ 2 := by
        have he : (((demanda_lead_time p : ℚ) : ℝ) - (e : ℝ)) ^ 2 =
            ((e : ℝ) - ((demanda_lead_time p : ℚ) : ℝ)) ^ 2 := by ring
        rw [he]
        exact h2R
      have := (Real.sqrt_lt' hpos).mpr hsq2
      linarith
    · intro h
      have hsn := Real.sqrt_nonneg ((p.fator_seguranca : ℝ) ^ 2 *
        ((var_demanda_durante_lt p + var_lead_time_demand p : ℚ) : ℝ))
      have h1R : (e : ℝ) - ((demanda_lead_time p : ℚ) : ℝ) < 0 := by linarith
      have h1Q : e - demanda_lead_time p < 0 := by exact_mod_cast h1R
      refine ⟨h1Q, ?_⟩
      have hpos : 0 < ((demanda_lead_time p : ℚ) : ℝ) - (e : ℝ) := by linarith
      have h2 := (Real.sqrt_lt' hpos).mp (by linarith)
      have h2R : (p.fator_seguranca : ℝ) ^ 2 *
          ((var_demanda_durante_lt p + var_lead_time_demand p : ℚ) : ℝ) <
          ((e : ℝ) - ((demanda_lead_time p : ℚ) : ℝ)) ^ 2 := by
        have he : (((demanda_lead_time p : ℚ) : ℝ) - (e : ℝ)) ^ 2 =
            ((e : ℝ) - ((demanda_lead_time p : ℚ) : ℝ)) ^ 2 := by ring
        rw [← he]
        exact h2
      exact_mod_cast h2R

/-! ## The scenario parameter sets (lines 114-154) -/

/-- Lines 114-122: `params_norte`. -/
def params_norte (volatilidade lead_time_base incerteza_transporte z : ℚ) : Params :=
  { demanda_media := 3.3, demanda_std := volatilidade / 30,
    lead_time_media := lead_time_base, lead_time_std := incerteza_transporte,
    custo_frete := 2.5, estoque_inicial := 50, fator_seguranca := z }

/-- Lines 123-131: `params_sul`. -/
def params_sul (volatilidade lead_time_base incerteza_transporte z : ℚ) : Params :=
  { demanda_media := 4.1, demanda_std := (volatilidade + 5) / 30,
    lead_time_media := lead_time_base, lead_time_std := incerteza_transporte,
    custo_frete := 2.5, estoque_inicial := 60, fator_seguranca := z }

/-- Lines 132-140: `params_centro`. -/
def params_centro (volatilidade lead_time_base incerteza_transporte z : ℚ) : Params :=
  { demanda_media := 3.0, demanda_std := (volatilidade - 5) / 30,
    lead_time_media := lead_time_base, lead_time_std := incerteza_transporte,
    custo_frete := 2.5, estoque_inicial := 40, fator_seguranca := z }

/-- Line 144:
`std_central = np.sqrt((volatilidade/30)**2 + ((volatilidade+5)/30)**2 + ((volatilidade-5)/30)**2)`. -/
noncomputable def std_central (volatilidade : ℚ) : ℝ :=
  Real.sqrt (((volatilidade / 30 : ℚ) : ℝ) ^ 2 + (((volatilidade + 5) / 30 : ℚ) : ℝ) ^ 2 +
    (((volatilidade - 5) / 30 : ℚ) : ℝ) ^ 2)

/-- Real-valued parameter record for the pooled site, whose demand standard
deviation is a square root and hence not rational. -/
structure ParamsR where
  demanda_media : ℝ
  demanda_std : ℝ
  lead_time_media : ℝ
  lead_time_std : ℝ
  custo_frete : ℝ
  estoque_inicial : ℝ
  fator_seguranca : ℝ

/-- Lines 146-154: `params_central` (mean 10.4, std `std_central`, freight
3.80, initial stock 150, no lead-time penalty). -/
noncomputable def params_central (volatilidade lead_time_base incerteza_transporte z : ℚ) :
    ParamsR :=
  { demanda_media := 10.4, demanda_std := std_central volatilidade,
    lead_time_media := (lead_time_base : ℝ), lead_time_std := (incerteza_transporte : ℝ),
    custo_frete := 3.8, estoque_inicial := 150, fator_seguranca := (z : ℝ) }

/-! ## Definitions modelled from the spec (absent from the source) -/

/-- Modelled from the spec: step 2 of the daily update claims the demand
sample is clamped as `max(0, round(sample))`.  No rounding occurs in the
source (`src/app.py` line 39 truncates with `int`); this definition exists
only to compare the spec's words with the code. -/
def demanda_spec_arredondada (dS : ℚ) : ℤ := max 0 (round dS)

/-- Modelled from the spec: the "Simple" reorder-point variant
`ROP = mean_demand * mean_lead_time + safety_factor * demand_std`, which the
spec requires as a selectable alternative.  No such computation or selector
exists in the source; this definition exists only for the comparison. -/
def rop_simples (p : Params) : ℚ :=
  p.demanda_media * p.lead_time_media + p.fator_seguranca * p.demanda_std

/-- Parameters whose combined-variance reorder point differs from the simple
variant (lead-time variance present, demand variance zero). -/
def paramsVariantes : Params :=
  { demanda_media := 1, demanda_std := 0, lead_time_media := 4, lead_time_std := 1,
    custo_frete := 1, estoque_inicial := 0, fator_seguranca := 1 }

/-- Parameters the spec's error taxonomy declares invalid (nonpositive mean
demand and nonpositive mean lead time) but which `np.random.normal` accepts
without complaint: both standard deviations are 0, numpy's scale domain being
`scale >= 0` (a negative scale raises a ValueError at the draw itself, a
different failure from the spec's fail-fast InvalidParameter). -/
def paramsInvalidos : Params :=
  { demanda_media := -1, demanda_std := 0, lead_time_media := 0, lead_time_std := 0,
    custo_frete := 1, estoque_inicial := 10, fator_seguranca := 1 }

/-- The sample stream `np.random.normal` actually produces for
`paramsInvalidos`: with a zero scale every draw equals the mean, so the
demand sample is -1 and the lead-time sample is 0 on every day. -/
def entradaDeterministica : ℕ → ℚ × ℚ := fun _ => (-1, 0)

/-- Parameters with empty initial stock, so the reorder trigger fires on the
very first day. -/
def paramsSemEstoque : Params :=
  { demanda_media := 5, demanda_std := 0, lead_time_media := 4, lead_time_std := 0,
    custo_frete := 5/2, estoque_inicial := 0, fator_seguranca := 1 }

/-- Every day of a run appends exactly one entry to the day history, whatever
the parameters: the run of `n` days records days `0, …, n-1` in order. -/
theorem rodar_historico_dias (p : Params) (f : ℕ → ℚ × ℚ) (n : ℕ) :
    (rodar p f n).historico_dias = List.range n := by
  induction n with
  | zero => rfl
  | succ n ih => rw [rodar, passo_historico_dias, ih, List.range_succ]

/-! ## Claim theorems -/

/-- Claim C1: for every site (any parameters), every input stream of demand
and lead-time samples and every simulated day of a run, at most one
replenishment order is in flight: the list of pending `fazer_pedido`
processes never holds two orders, because the daily guard
`estoque < rop and not pedido_em_transito` blocks a second launch while one
is pending. -/
theorem no_maximo_um_pedido_em_transito (p : Params) (f : ℕ → ℚ × ℚ) (n : ℕ) :
    (rodar p f n).pendentes.length ≤ 1 :=
  (inv_rodar p f n).1

/-- Claim C2 counterexample: on day 0 with empty stock the launching step
fires the trigger (second component true), yet at launch time the state left
by the daily-update step still has `pedido_em_transito = false`: the flag
assignment is deferred to the replenishment procedure `fazer_pedido`, whose
first segment runs only when the scheduler resumes it later the same day. -/
theorem lancamento_nao_seta_flag :
    (corpo_do_dia paramsSemEstoque 0 0 (estado_inicial paramsSemEstoque)).2 = true ∧
    (corpo_do_dia paramsSemEstoque 0 0 (estado_inicial paramsSemEstoque)).1.pedido_em_transito
      = false := by
  have hd : demandaDia 0 = 0 := by norm_num [demandaDia, pytrunc]
  have he : (corpo_do_dia paramsSemEstoque 0 0 (estado_inicial paramsSemEstoque)).1.estoque
      = 0 := by
    rw [corpo_fst_estoque, hd]
    norm_num [estado_inicial, paramsSemEstoque]
  constructor
  · rw [corpo_snd, he]
    norm_num [belowROP, paramsSemEstoque, demanda_lead_time, estado_inicial]
  · rw [corpo_fst_pedido_em_transito]
    rfl

/-- Claim C2 (amended): the flag is set not by the launching step of the
daily update but by the first statement of `fazer_pedido`, which the
scheduler runs within the same simulated day; hence at every day boundary
`pedido_em_transito` is true exactly when an order is pending, so the flag is
already true before the check of any following day runs. -/
theorem flag_sse_pedido_pendente (p : Params) (f : ℕ → ℚ × ℚ) (n : ℕ) :
    ((rodar p f n).pedido_em_transito = true ↔ (rodar p f n).pendentes ≠ []) :=
  (inv_rodar p f n).2

/-- Claim C3: once the day's demand `d` is determined, if `d ≤ stock` the
stock decreases by exactly `d` and the lost-sales and cost accumulators are
untouched; otherwise lost sales grow by the shortfall `d - stock`, the cost
grows by the shortfall times 20.00, and the stock becomes 0. -/
theorem consumo_aplica_demanda (s : Estado) (d : ℤ) :
    (consumo s d).estoque = (if (d : ℚ) ≤ s.estoque then s.estoque - (d : ℚ) else 0) ∧
    (consumo s d).vendas_perdidas =
      (if (d : ℚ) ≤ s.estoque then s.vendas_perdidas
        else s.vendas_perdidas + ((d : ℚ) - s.estoque)) ∧
    (consumo s d).custo_total =
      (if (d : ℚ) ≤ s.estoque then s.custo_total
        else s.custo_total + ((d : ℚ) - s.estoque) * 20) :=
  ⟨consumo_estoque s d, consumo_vendas s d, consumo_custo s d⟩

/-- Claim C4 counterexample: at the sample 2.7 the code applies demand
`max(0, int(2.7)) = 2`, while the spec's `max(0, round(2.7))` is 3. -/
theorem demanda_trunca_nao_arredonda :
    demandaDia (27/10) = 2 ∧ demanda_spec_arredondada (27/10) = 3 ∧
    demandaDia (27/10) ≠ demanda_spec_arredondada (27/10) := by
  have h1 : demandaDia (27/10) = 2 := by
    norm_num [demandaDia, pytrunc, Int.floor_eq_iff]
  have h2 : demanda_spec_arredondada (27/10) = 3 := by
    norm_num [demanda_spec_arredondada, round_eq, Int.floor_eq_iff]
  refine ⟨h1, h2, ?_⟩
  rw [h1, h2]
  decide

/-- Claim C4 (amended): the demand applied each day equals
`max(0, int(sample))` where `int` truncates toward zero: the floor for a
nonnegative sample and 0 for a negative one — not `max(0, round(sample))`.
The applied demand is always a nonnegative integer. -/
theorem demanda_aplicada_trunca (dS : ℚ) :
    demandaDia dS = (if 0 ≤ dS then max 0 ⌊dS⌋ else 0) ∧ 0 ≤ demandaDia dS := by
  constructor
  · by_cases h : 0 ≤ dS
    · simp [demandaDia, pytrunc, h]
    · have hc : ⌈dS⌉ ≤ (0 : ℤ) :=
        Int.ceil_le.mpr (by exact_mod_cast le_of_lt (lt_of_not_le h))
      simp [demandaDia, pytrunc, h, max_eq_left hc]
  · exact le_max_left 0 _

/-- Claim C5 counterexample: at `paramsVariantes` the reorder point computed
by the code is the combined-variance value 5, while the spec's simple variant
gives 4; the computation offers no selector and never produces the simple
value. -/
theorem rop_difere_da_variante_simples :
    rop paramsVariantes = 5 ∧ rop_simples paramsVariantes = 4 ∧
    rop paramsVariantes ≠ (rop_simples paramsVariantes : ℝ) := by
  have h1 : rop paramsVariantes = 5 := by
    rw [rop, estoque_seguranca, sigma_combinado]
    norm_num [demanda_lead_time, var_demanda_durante_lt, var_lead_time_demand,
      paramsVariantes, Real.sqrt_one]
  have h2 : rop_simples paramsVariantes = 4 := by
    norm_num [rop_simples, paramsVariantes]
  refine ⟨h1, h2, ?_⟩
  rw [h1, h2]
  norm_num

/-- Claim C5 (amended): the daily launch decision is exactly the comparison
of the post-consumption stock against the combined-variance reorder point
`demanda_media * lead_time_media + fator_seguranca * sqrt(lead_time_media *
demanda_std^2 + demanda_media^2 * lead_time_std^2)` (together with the
no-order-pending guard); no simple variant is computed or selectable. -/
theorem gatilho_compara_rop_combinado (p : Params) (dia : ℕ) (dS : ℚ) (s : Estado)
    (hv : 0 ≤ var_demanda_durante_lt p + var_lead_time_demand p) :
    ((corpo_do_dia p dia dS s).2 = true ↔
      (((corpo_do_dia p dia dS s).1.estoque : ℝ) <
          ((p.demanda_media * p.lead_time_media : ℚ) : ℝ) +
            (p.fator_seguranca : ℝ) *
              Real.sqrt ((p.lead_time_media * p.demanda_std ^ 2 +
                p.demanda_media ^ 2 * p.lead_time_std ^ 2 : ℚ) : ℝ) ∧
        s.pedido_em_transito = false)) := by
  rw [corpo_snd, Bool.and_eq_true]
  have h1 := belowROP_iff p ((corpo_do_dia p dia dS s).1.estoque) hv
  rw [rop, estoque_seguranca, sigma_combinado] at h1
  have h2 : ((!s.pedido_em_transito) = true) ↔ s.pedido_em_transito = false := by
    cases s.pedido_em_transito <;> simp
  exact and_congr h1 h2

/-- Claim C5 witness: the amended trigger equivalence instantiated at
`paramsTeste`, day 0, demand sample 3, the initial state. -/
theorem gatilho_compara_rop_combinado_witness :
    ((corpo_do_dia paramsTeste 0 3 (estado_inicial paramsTeste)).2 = true ↔
      (((corpo_do_dia paramsTeste 0 3 (estado_inicial paramsTeste)).1.estoque : ℝ) <
          ((paramsTeste.demanda_media * paramsTeste.lead_time_media : ℚ) : ℝ) +
            (paramsTeste.fator_seguranca : ℝ) *
              Real.sqrt ((paramsTeste.lead_time_media * paramsTeste.demanda_std ^ 2 +
                paramsTeste.demanda_media ^ 2 * paramsTeste.lead_time_std ^ 2 : ℚ) : ℝ) ∧
        (estado_inicial paramsTeste).pedido_em_transito = false)) :=
  gatilho_compara_rop_combinado paramsTeste 0 3 (estado_inicial paramsTeste)
    (by norm_num [var_demanda_durante_lt, var_lead_time_demand, paramsTeste])

/-- Claim C6: when a replenishment order arrives, the stock increases by
exactly the fixed lot of 300 units, the total cost increases by exactly
`150.00 + 300 * custo_frete`, and `pedido_em_transito` is cleared. -/
theorem chegada_do_pedido (p : Params) (s : Estado) :
    (fazer_pedido_chegada p s).estoque = s.estoque + 300 ∧
    (fazer_pedido_chegada p s).custo_total = s.custo_total + (150 + 300 * p.custo_frete) ∧
    (fazer_pedido_chegada p s).pedido_em_transito = false :=
  ⟨rfl, rfl, rfl⟩

/-- Claim C7: starting from a nonnegative initial stock, the stock of a run
is never negative at any day, and neither is any recorded history entry:
depletion clamps at 0 and arrivals only add. -/
theorem estoque_nunca_negativo (p : Params) (f : ℕ → ℚ × ℚ) (n : ℕ)
    (h0 : 0 ≤ p.estoque_inicial) :
    0 ≤ (rodar p f n).estoque ∧ ∀ x ∈ (rodar p f n).historico_estoque, 0 ≤ x :=
  estoquePos_rodar p f h0 n

/-- Claim C7 witness: the nonnegativity theorem instantiated at `paramsTeste`
after four simulated days. -/
theorem estoque_nunca_negativo_witness :
    0 ≤ (rodar paramsTeste entradaTeste 4).estoque ∧
    ∀ x ∈ (rodar paramsTeste entradaTeste 4).historico_estoque, 0 ≤ x :=
  estoque_nunca_negativo paramsTeste entradaTeste 4 (by norm_num [paramsTeste])

/-- Claim C8: for every setting of the sliders, the pooled site's demand
standard deviation equals exactly the root-sum-of-squares of the three
regional standard deviations, and its demand mean equals the sum of the
three regional means — a deterministic identity of the parameter
construction, not a sampled quantity. -/
theorem risk_pooling_identity (volatilidade lead_time_base incerteza z : ℚ) :
    (params_central volatilidade lead_time_base incerteza z).demanda_std =
      Real.sqrt
        (((params_norte volatilidade lead_time_base incerteza z).demanda_std : ℝ) ^ 2 +
         ((params_sul volatilidade lead_time_base incerteza z).demanda_std : ℝ) ^ 2 +
         ((params_centro volatilidade lead_time_base incerteza z).demanda_std : ℝ) ^ 2) ∧
    (params_central volatilidade lead_time_base incerteza z).demanda_media =
      ((params_norte volatilidade lead_time_base incerteza z).demanda_media : ℝ) +
      ((params_sul volatilidade lead_time_base incerteza z).demanda_media : ℝ) +
      ((params_centro volatilidade lead_time_base incerteza z).demanda_media : ℝ) := by
  constructor
  · rfl
  · show (10.4 : ℝ) = ((3.3 : ℚ) : ℝ) + ((4.1 : ℚ) : ℝ) + ((3.0 : ℚ) : ℝ)
    norm_num

/-- Claim C9 counterexample: a configuration the spec declares invalid (mean
demand -1 ≤ 0, mean lead time 0 ≤ 0) yet inside numpy's sampling domain
(both standard deviations 0, so every draw equals the mean and the sample
stream is `entradaDeterministica`) is accepted by the constructor and the
run executes all three requested days — no InvalidParameter failure exists
anywhere in the code. -/
theorem parametros_invalidos_executam :
    paramsInvalidos.demanda_media ≤ 0 ∧ paramsInvalidos.lead_time_media ≤ 0 ∧
    0 ≤ paramsInvalidos.demanda_std ∧ 0 ≤ paramsInvalidos.lead_time_std ∧
    (estado_inicial paramsInvalidos).estoque = 10 ∧
    (rodar paramsInvalidos entradaDeterministica 3).historico_dias = [0, 1, 2] := by
  refine ⟨by norm_num [paramsInvalidos], by norm_num [paramsInvalidos],
    by norm_num [paramsInvalidos], by norm_num [paramsInvalidos],
    by norm_num [estado_inicial, paramsInvalidos], ?_⟩
  rw [rodar_historico_dias]
  rfl

/-- Claim C9 (amended): the code performs no parameter validation:
`CentroDistribuicao.__init__` accepts any configuration without checks, and
for every configuration inside numpy's sampling domain (both standard
deviations nonnegative — the domain on which the draw-as-input-stream model
is faithful, since `np.random.normal` raises a ValueError for a negative
scale) the simulation executes every requested day: the run of `n` days
records the full day history `0, …, n-1`.  In particular nonpositive mean
demand or mean lead time never aborts the run. -/
theorem rodar_sem_validacao (p : Params) (f : ℕ → ℚ × ℚ) (n : ℕ)
    (_hd : 0 ≤ p.demanda_std) (_hl : 0 ≤ p.lead_time_std) :
    (rodar p f n).historico_dias = List.range n :=
  rodar_historico_dias p f n

/-- Claim C9 witness: the amended theorem instantiated at the spec-invalid
but numpy-acceptable `paramsInvalidos` with its deterministic sample stream,
over five days. -/
theorem rodar_sem_validacao_witness :
    (rodar paramsInvalidos entradaDeterministica 5).historico_dias = List.range 5 :=
  rodar_sem_validacao paramsInvalidos entradaDeterministica 5
    (by norm_num [paramsInvalidos]) (by norm_num [paramsInvalidos])

/-- Claim C10: when the initial stock is an integer, the stock and the
accumulated lost sales are integer-valued at every day of every run: each
applied demand is an integer, each shortfall is an integer, and each
replenishment adds the integer 300. -/
theorem estoque_vendas_inteiros (p : Params) (f : ℕ → ℚ × ℚ) (n : ℕ)
    (h0 : ∃ k : ℤ, p.estoque_inicial = (k : ℚ)) :
    (∃ k : ℤ, (rodar p f n).estoque = (k : ℚ)) ∧
    ∃ k : ℤ, (rodar p f n).vendas_perdidas = (k : ℚ) :=
  estadoInteiro_rodar p f h0 n

/-- Claim C10 witness: the integrality theorem instantiated at `paramsTeste`
(integer initial stock 2) after four simulated days. -/
theorem estoque_vendas_inteiros_witness :
    (∃ k : ℤ, (rodar paramsTeste entradaTeste 4).estoque = (k : ℚ)) ∧
    ∃ k : ℤ, (rodar paramsTeste entradaTeste 4).vendas_perdidas = (k : ℚ) :=
  estoque_vendas_inteiros paramsTeste entradaTeste 4 ⟨2, by norm_num [paramsTeste]⟩
